import Mathlib

/-!
Verification of the swineQQ natural-language analytics pipeline.

The Python sources are shallowly embedded: strings are lists of characters,
the three specific regular expressions used by the repository are implemented
directly with their leftmost / non-greedy search semantics, external calls
(OpenAI moderation, the jailbreak classifier, the chat completions API, the
database) are modelled by environment records carrying each call's outcome
(`Except` for calls that may raise, `Option` for classifier results), and a
raised Python exception is an `Except.error` value.  Workflow functions
additionally record which downstream calls were performed, so that
"the translator was never invoked" style properties are expressible.
-/

/-- Strings from the Python sources are modelled as lists of characters. -/
abbrev Str := List Char

/-- The ASCII whitespace characters recognised by Python's `\s` class and by
`str.strip()` (space, tab, newline, carriage return, vertical tab, form feed). -/
def isSpace (c : Char) : Bool :=
  c == ' ' || c == '\t' || c == '\n' || c == '\r' || c == '\x0b' || c == '\x0c'

/-- ASCII upper-casing of a single character, as performed by Python's
`str.upper()` on the ASCII inputs relevant here. -/
def upChar : Char → Char
  | 'a' => 'A' | 'b' => 'B' | 'c' => 'C' | 'd' => 'D' | 'e' => 'E' | 'f' => 'F'
  | 'g' => 'G' | 'h' => 'H' | 'i' => 'I' | 'j' => 'J' | 'k' => 'K' | 'l' => 'L'
  | 'm' => 'M' | 'n' => 'N' | 'o' => 'O' | 'p' => 'P' | 'q' => 'Q' | 'r' => 'R'
  | 's' => 'S' | 't' => 'T' | 'u' => 'U' | 'v' => 'V' | 'w' => 'W' | 'x' => 'X'
  | 'y' => 'Y' | 'z' => 'Z'
  | c => c

/-- Python `text.upper()`. -/
def upS (s : Str) : Str := s.map upChar

/-- `leadsWith pat s` holds when `s` starts with `pat`. -/
def leadsWith : Str → Str → Bool
  | [], _ => true
  | _ :: _, [] => false
  | a :: as, b :: bs => a == b && leadsWith as bs

/-- Python's `pat in s` substring test. -/
def occursIn (pat : Str) : Str → Bool
  | [] => leadsWith pat []
  | s@(_ :: rest) => leadsWith pat s || occursIn pat rest

/-- Python `s.strip()`, right end. -/
def stripEnd (s : Str) : Str := (s.reverse.dropWhile isSpace).reverse

/-- Python `s.strip()`. -/
def pyStrip (s : Str) : Str := stripEnd (s.dropWhile isSpace)

/-- The characters of a Lean string literal, for writing concrete inputs. -/
def strL (s : String) : Str := s.toList

/-! ### The three regular-expression searches used by the repository

`re.search(r'```sql\n(.*?)\n```', text, re.DOTALL | re.IGNORECASE)`,
`re.search(r'```\n(.*?)\n```', text, re.DOTALL)` and
`re.search(r'(SELECT\s+.*?;)', text, re.DOTALL | re.IGNORECASE)`
are implemented directly: the search scans positions left to right, and the
non-greedy group ends at the first possible closing position. -/

/-- Does the text start with the opening fence of a ```` ```sql ````
block (case-insensitive `sql`, per `re.IGNORECASE`)? -/
def fsqlOpen : Str → Bool
  | '`' :: '`' :: '`' :: a :: b :: c :: '\n' :: _ =>
      upChar a == 'S' && upChar b == 'Q' && upChar c == 'L'
  | _ => false

/-- Does the text start with the opening fence ```` ``` ```` followed by a
newline (the `` ```\n `` of the second pattern)? -/
def fanyOpen : Str → Bool
  | '`' :: '`' :: '`' :: '\n' :: _ => true
  | _ => false

/-- The closing fence `\n```` ``` ````. -/
def closeFence : Str := ['\n', '`', '`', '`']

/-- Characters before the first occurrence of the closing fence, or `none`
when no closing fence follows (the non-greedy `(.*?)\n``` ` group). -/
def takeUntilClose : Str → Option Str
  | [] => none
  | s@(c :: rest) =>
      if leadsWith closeFence s then some []
      else (takeUntilClose rest).map (c :: ·)

/-- `re.search` for ```` ```sql\n(.*?)\n``` ````: the group of the leftmost
match, shortest group first. -/
def fencedSqlSearch : Str → Option Str
  | [] => none
  | s@(_ :: rest) =>
      if fsqlOpen s then
        match takeUntilClose (s.drop 7) with
        | some g => some g
        | none => fencedSqlSearch rest
      else fencedSqlSearch rest

/-- `re.search` for ```` ```\n(.*?)\n``` ````. -/
def fencedAnySearch : Str → Option Str
  | [] => none
  | s@(_ :: rest) =>
      if fanyOpen s then
        match takeUntilClose (s.drop 4) with
        | some g => some g
        | none => fencedAnySearch rest
      else fencedAnySearch rest

/-- The characters of `SELECT`. -/
def selU : Str := ['S', 'E', 'L', 'E', 'C', 'T']

/-- The characters of `FROM`. -/
def fromU : Str := ['F', 'R', 'O', 'M']

/-- Characters up to and including the first `;`, or `none` when there is
no `;` (the `.*?;` part of the `(SELECT\s+.*?;)` pattern). -/
def semiTake : Str → Option Str
  | [] => none
  | c :: rest => if c == ';' then some [c] else (semiTake rest).map (c :: ·)

/-- A match of `(SELECT\s+.*?;)` anchored at the start of `s`: six characters
upper-casing to `SELECT`, one whitespace character (`\s+` needs at least one),
then everything up to the first following `;`.  Since a whitespace run
contains no `;`, the greedy `\s+` does not move the end of the match. -/
def selectMatchAt (s : Str) : Option Str :=
  match s with
  | a :: b :: c :: d :: e :: f :: w :: t =>
      if upS [a, b, c, d, e, f] == selU && isSpace w then
        (semiTake t).map (fun u => a :: b :: c :: d :: e :: f :: w :: u)
      else none
  | _ => none

/-- `re.search` for `(SELECT\s+.*?;)` with `re.DOTALL | re.IGNORECASE`. -/
def selectSearch : Str → Option Str
  | [] => none
  | s@(_ :: rest) =>
      match selectMatchAt s with
      | some g => some g
      | none => selectSearch rest

/-! ### SQL extraction (src/workflow.py `extract_sql_from_markdown`,
src/utils.py `extract_sql_from_markdown`, and the extraction half of
src/chart_agents.py `generate_chart_sql`)

`extract_sql_from_markdown` embeds the function of `workflow.py` (the
`utils.py` copy behaves identically: it merely checks `'SELECT'` on the
stripped rather than unstripped code-block group, and stripping cannot add or
remove an occurrence of `SELECT`).  A raised `ValueError` is `none`. -/

/-- Branches three and four of `extract_sql_from_markdown`: the direct
`(SELECT\s+.*?;)` search, then the `SELECT`-and-`FROM` full-text fallback
that strips the text and appends a terminating `;` when missing. -/
def extractSelectOrLast (text : Str) : Option Str :=
  match selectSearch text with
  | some g => some (pyStrip g)
  | none =>
      if occursIn selU (upS text) && occursIn fromU (upS text) then
        let cleaned := pyStrip text
        if cleaned.getLast? == some ';' then some cleaned
        else some (cleaned ++ [';'])
      else none

/-- src/workflow.py lines 334-358: extract the SQL string from a model
response; `none` models the raised `ValueError`. -/
def extract_sql_from_markdown (text : Str) : Option Str :=
  match fencedSqlSearch text with
  | some g => some (pyStrip g)
  | none =>
      match fencedAnySearch text with
      | some g =>
          if occursIn selU (upS g) then some (pyStrip g)
          else extractSelectOrLast text
      | none => extractSelectOrLast text

/-- src/chart_agents.py lines 477-492: the extraction part of
`generate_chart_sql`, applied to the model response.  It has no direct
`SELECT ... ;` branch, and its last resort requires only `SELECT` (no `FROM`)
and returns the stripped response without appending `;`. -/
def extractChartSql (sql_text : Str) : Option Str :=
  match fencedSqlSearch sql_text with
  | some g => some (pyStrip g)
  | none =>
      match fencedAnySearch sql_text with
      | some g =>
          if occursIn selU (upS g) then some (pyStrip g)
          else if occursIn selU (upS sql_text) then some (pyStrip sql_text)
          else none
      | none =>
          if occursIn selU (upS sql_text) then some (pyStrip sql_text)
          else none

/-! ### The spec's SqlStatement invariant (§3, §8)

These two definitions follow the SPEC's words, not the source: the regex
`/^SELECT\b.*LIMIT\s+\d+/is` and the absence of the four DDL/DML keywords.
They are compared against what the extraction code actually guarantees. -/

/-- A word character for the `\b` boundary of the spec's regex. -/
def wordChar (c : Char) : Bool :=
  ('A' ≤ c && c ≤ 'Z') || ('a' ≤ c && c ≤ 'z') || ('0' ≤ c && c ≤ '9') || c == '_'

/-- `\s+\d` : a non-empty whitespace run followed by a digit. -/
def wsThenDigit : Str → Bool
  | [] => false
  | c :: t =>
      isSpace c &&
        (match (t.dropWhile isSpace).head? with
         | some d => d.isDigit
         | none => false)

/-- `LIMIT\s+\d` anchored at the start of an upper-cased text. -/
def limitAt : Str → Bool
  | 'L' :: 'I' :: 'M' :: 'I' :: 'T' :: rest => wsThenDigit rest
  | _ => false

/-- Search for `LIMIT\s+\d` anywhere in an upper-cased text. -/
def scanLimit : Str → Bool
  | [] => false
  | s@(_ :: rest) => limitAt s || scanLimit rest

/-- Modelled from the spec: `/^SELECT\b.*LIMIT\s+\d+/is`. -/
def matchesSelectLimit (s : Str) : Bool :=
  (match upS s with
   | 'S' :: 'E' :: 'L' :: 'E' :: 'C' :: 'T' :: rest =>
       (match rest with
        | [] => true
        | c :: _ => !wordChar c)
   | _ => false) &&
  scanLimit ((upS s).drop 6)

/-- Modelled from the spec: the extracted statement contains none of the
keywords INSERT, UPDATE, DELETE, DROP. -/
def noDmlKeyword (s : Str) : Bool :=
  !occursIn (strL "INSERT") (upS s) && !occursIn (strL "UPDATE") (upS s) &&
  !occursIn (strL "DELETE") (upS s) && !occursIn (strL "DROP") (upS s)

/-- Modelled from the spec: the full SqlStatement invariant of §3/§8. -/
def specSqlInvariant (s : Str) : Bool :=
  matchesSelectLimit s && noDmlKeyword s

/-! ### Security guardrails (src/guardrails_advanced.py)

The two classifiers are external calls; their outcomes are supplied as
values: `Option Bool` for the moderation API (`none` = the call raised,
`some b` = returned with `flagged = b`) and `Option ℚ` for the jailbreak
model (`none` = loading/inference raised, `some p` = jailbreak probability). -/

/-- The `reason` strings used by the guardrails results. -/
inductive SecReason
  | harmful_content
  | jailbreak_attempt
deriving DecidableEq

/-- Outcomes of the two external classifier calls for one input text. -/
structure SecEnv where
  modOutcome : Option Bool
  jailOutcome : Option ℚ
deriving DecidableEq

/-- Result dictionary of `MultiLayerGuardrails.run_openai_moderation`
(lines 146-172): `error` is true on the exception path, which returns
`blocked: False` with no reason. -/
structure ModResult where
  blocked : Bool
  reason : Option SecReason
  error : Bool
deriving DecidableEq

/-- src/guardrails_advanced.py lines 146-172. -/
def run_openai_moderation (outcome : Option Bool) : ModResult :=
  match outcome with
  | some true => ⟨true, some .harmful_content, false⟩
  | some false => ⟨false, none, false⟩
  | none => ⟨false, none, true⟩

/-- Result dictionary of `JailbreakDetector.detect` (lines 80-130): on an
exception anywhere in the body, the handler returns
`is_jailbreak: False, confidence: 0.0` with an error marker. -/
structure DetectResult where
  is_jailbreak : Bool
  confidence : ℚ
  error : Bool
deriving DecidableEq

/-- src/guardrails_advanced.py lines 80-130; the blocking test is the strict
comparison `jailbreak_prob > threshold`. -/
def JailbreakDetector.detect (outcome : Option ℚ) (threshold : ℚ) : DetectResult :=
  match outcome with
  | some p => ⟨decide (threshold < p), p, false⟩
  | none => ⟨false, 0, true⟩

/-- Result dictionary of `MultiLayerGuardrails.run_jailbreak_detection`
(lines 174-197). -/
structure JailResult where
  blocked : Bool
  reason : Option SecReason
  confidence : ℚ
deriving DecidableEq

/-- src/guardrails_advanced.py lines 174-197.  `detect` handles its own
exceptions, so the outer handler of `run_jailbreak_detection` is
unreachable and is not represented. -/
def run_jailbreak_detection (outcome : Option ℚ) (threshold : ℚ) : JailResult :=
  let r := JailbreakDetector.detect outcome threshold
  if r.is_jailbreak then ⟨true, some .jailbreak_attempt, r.confidence⟩
  else ⟨false, none, r.confidence⟩

/-- Result of `MultiLayerGuardrails.check_all` (lines 199-247),
with one bookkeeping field: `jailbreakInvoked` records whether
`run_jailbreak_detection` was called at all. -/
structure CheckAllResult where
  blocked : Bool
  reason : Option SecReason
  jailbreakInvoked : Bool
deriving DecidableEq

/-- src/guardrails_advanced.py lines 199-247: moderation first; if it blocks,
return immediately with reason `harmful_content` and never run the jailbreak
check; otherwise run the jailbreak check and block on its verdict. -/
def check_all (env : SecEnv) (jailbreak_threshold : ℚ) : CheckAllResult :=
  let m := run_openai_moderation env.modOutcome
  if m.blocked then ⟨true, some .harmful_content, false⟩
  else
    let j := run_jailbreak_detection env.jailOutcome jailbreak_threshold
    if j.blocked then ⟨true, some .jailbreak_attempt, true⟩
    else ⟨false, none, true⟩

/-- src/guardrails_advanced.py lines 261-276 (delegates to `check_all`). -/
def run_security_checks (env : SecEnv) (jailbreak_threshold : ℚ) : CheckAllResult :=
  check_all env jailbreak_threshold

/-! ### Workflow data (src/workflow.py, src/workflow_chart.py) -/

/-- Kinds of Python exceptions raised by external calls or by the code. -/
inductive PyExc
  | valueError
  | apiError
  | dbError
  | connectError
  | unboundLocalError
  | validationError
  | runtimeError
deriving DecidableEq

/-- A result row: a mapping from column names to (displayed) values. -/
abbrev Row := List (Str × Str)

deriving instance DecidableEq for Except

/-- The error message of the text workflow's only failure dictionary,
`f"Security check failed: {security_result['reason']}"`. -/
inductive TextErr
  | securityFailed (reason : Option SecReason)
deriving DecidableEq

/-- The dictionary returned by `run_workflow` (src/workflow.py 414-452). -/
structure TextEnvelope where
  success : Bool
  error : Option TextErr
  sql_query : Option Str
  raw_results : Option (List Row)
  analysis : Option Str
deriving DecidableEq

/-- Outcomes of the external calls made by the text workflow. -/
structure TextEnv where
  sec : SecEnv
  sqlResponse : Except PyExc Str
  dbOutcome : Except PyExc (List Row)
  analysisOutcome : Except PyExc Str
deriving DecidableEq

/-- `run_workflow`'s result plus a record of which downstream calls were
made.  `result = .error e` means the exception `e` escaped `run_workflow`
to its caller (the function has no try/except around steps 2-4). -/
structure TextOutcome where
  result : Except PyExc TextEnvelope
  jailbreakCalled : Bool
  translatorCalled : Bool
  dbCalled : Bool
  interpreterCalled : Bool
deriving DecidableEq

/-- src/workflow.py lines 414-452: security gate (threshold 0.5), then the
SQL-generation call and `extract_sql_from_markdown`, then
`execute_snowflake_query`, then the analysis call — none of the last three
stages is guarded by a try/except. -/
def run_workflow (env : TextEnv) : TextOutcome :=
  let sec := run_security_checks env.sec (1 / 2)
  if sec.blocked then
    ⟨.ok ⟨false, some (.securityFailed sec.reason), none, none, none⟩,
      sec.jailbreakInvoked, false, false, false⟩
  else
    match env.sqlResponse with
    | .error e => ⟨.error e, sec.jailbreakInvoked, true, false, false⟩
    | .ok sqlText =>
        match extract_sql_from_markdown sqlText with
        | none => ⟨.error .valueError, sec.jailbreakInvoked, true, false, false⟩
        | some sql_query =>
            match env.dbOutcome with
            | .error e => ⟨.error e, sec.jailbreakInvoked, true, true, false⟩
            | .ok results =>
                match env.analysisOutcome with
                | .error e => ⟨.error e, sec.jailbreakInvoked, true, true, true⟩
                | .ok analysis =>
                    ⟨.ok ⟨true, none, some sql_query, some results, some analysis⟩,
                      sec.jailbreakInvoked, true, true, true⟩

/-! ### Chart agents (src/chart_agents.py) -/

/-- The seven chart types of the `ChartSpecification` pydantic model. -/
inductive ChartType
  | line
  | bar
  | scatter
  | multi_line
  | grouped_bar
  | pie
  | heatmap
deriving DecidableEq

/-- src/chart_agents.py lines 404-414: the `ChartSpecification` pydantic
model.  `y_axis : str | list[str]` is a sum; `color_by` is optional with
default `None`; `height` defaults to 450 and `show_legend` to `True`. -/
structure ChartSpecification where
  chart_type : ChartType
  x_axis : Str
  y_axis : Str ⊕ List Str
  title : Str
  x_label : Str
  y_label : Str
  color_by : Option Str := none
  height : Int := 450
  show_legend : Bool := true
  reasoning : Str
deriving DecidableEq

/-- A parsed JSON value, as produced by `json.loads` on the model response. -/
inductive JVal
  | jstr (s : Str)
  | jnum (n : Int)
  | jbool (b : Bool)
  | jnull
  | jarr (l : List JVal)
  | jobj (o : List (Str × JVal))

/-- Lookup of a key in a JSON object. -/
def lookupJ (o : List (Str × JVal)) (k : Str) : Option JVal :=
  match o with
  | [] => none
  | (k', v) :: rest => if k' = k then some v else lookupJ rest k

/-- The `Literal` strings accepted for `chart_type`. -/
def chartTypeOfStr (s : Str) : Option ChartType :=
  if s = strL "line" then some .line
  else if s = strL "bar" then some .bar
  else if s = strL "scatter" then some .scatter
  else if s = strL "multi_line" then some .multi_line
  else if s = strL "grouped_bar" then some .grouped_bar
  else if s = strL "pie" then some .pie
  else if s = strL "heatmap" then some .heatmap
  else none

/-- A required `str` field. -/
def jStr? : Option JVal → Option Str
  | some (.jstr s) => some s
  | _ => none

/-- Every element of the list must be a string (for `list[str]`). -/
def jStrList? : List JVal → Option (List Str)
  | [] => some []
  | .jstr s :: rest => (jStrList? rest).map (s :: ·)
  | _ => none

/-- The `str | list[str]` union for `y_axis`. -/
def jYAxis? : Option JVal → Option (Str ⊕ List Str)
  | some (.jstr s) => some (.inl s)
  | some (.jarr l) => (jStrList? l).map .inr
  | _ => none

/-- The `Optional[str] = None` field `color_by`: absent or `null` gives
`None`; a string gives the string; anything else is rejected. -/
def jOptStr? : Option JVal → Option (Option Str)
  | none => some none
  | some .jnull => some none
  | some (.jstr s) => some (some s)
  | _ => none

/-- The `int = 450` field `height`. -/
def jHeight? : Option JVal → Option Int
  | none => some 450
  | some (.jnum n) => some n
  | _ => none

/-- The `bool = True` field `show_legend`. -/
def jLegend? : Option JVal → Option Bool
  | none => some true
  | some (.jbool b) => some b
  | _ => none

/-- Validation performed by `ChartSpecification(**result)` on the JSON object
parsed from the model response: each field is checked against its annotation,
defaults are filled in, extra keys are ignored, and any mismatch raises a
`ValidationError` (`none`). -/
def chartSpecOfJson (o : List (Str × JVal)) : Option ChartSpecification := do
  let ct ← jStr? (lookupJ o (strL "chart_type"))
  let chart_type ← chartTypeOfStr ct
  let x_axis ← jStr? (lookupJ o (strL "x_axis"))
  let y_axis ← jYAxis? (lookupJ o (strL "y_axis"))
  let title ← jStr? (lookupJ o (strL "title"))
  let x_label ← jStr? (lookupJ o (strL "x_label"))
  let y_label ← jStr? (lookupJ o (strL "y_label"))
  let color_by ← jOptStr? (lookupJ o (strL "color_by"))
  let height ← jHeight? (lookupJ o (strL "height"))
  let show_legend ← jLegend? (lookupJ o (strL "show_legend"))
  let reasoning ← jStr? (lookupJ o (strL "reasoning"))
  pure ⟨chart_type, x_axis, y_axis, title, x_label, y_label, color_by,
    height, show_legend, reasoning⟩

/-- src/chart_agents.py lines 456-492, `generate_chart_sql`: the chat call
(outcome supplied) followed by SQL extraction; a failed extraction raises
`ValueError`. -/
def generate_chart_sql (resp : Except PyExc Str) : Except PyExc Str :=
  match resp with
  | .error e => .error e
  | .ok sql_text =>
      match extractChartSql sql_text with
      | some s => .ok s
      | none => .error .valueError

/-- src/chart_agents.py lines 495-555, `generate_chart_specification`: raises
`ValueError` on empty results, then parses the model response into a
`ChartSpecification`.  The chat call and `json.loads` are supplied as an
outcome: `.ok o` is the parsed JSON object, `.error` a raised exception. -/
def generate_chart_specification (query_results : List Row)
    (specResp : Except PyExc (List (Str × JVal))) : Except PyExc ChartSpecification :=
  if query_results.isEmpty then .error .valueError
  else
    match specResp with
    | .error e => .error e
    | .ok o =>
        match chartSpecOfJson o with
        | some spec => .ok spec
        | none => .error .validationError

/-! ### Chart workflow (src/workflow_chart.py; src/workflow_chart_local.py has
the same stage-boundary structure with an extra connectivity diagnosis) -/

/-- The tagged error messages of the chart workflow's failure dictionaries. -/
inductive ChartErr
  | securityFailed (reason : Option SecReason)
  | sqlGenerationFailed (e : PyExc)
  | queryReturnedNoResults
  | queryExecutionFailed (e : PyExc)
  | chartSpecificationFailed (e : PyExc)
deriving DecidableEq

/-- The dictionary returned by `run_chart_workflow`. -/
structure ChartEnvelope where
  success : Bool
  error : Option ChartErr
  sql_query : Option Str
  raw_results : Option (List Row)
  chart_spec : Option ChartSpecification
deriving DecidableEq

/-- Outcomes of the external calls made by the chart workflow.  The MCP and
direct specification paths both return a `ChartSpecification` or raise, so a
single outcome field covers `use_mcp_server` true and false. -/
structure ChartEnv where
  sec : SecEnv
  chartSqlResponse : Except PyExc Str
  dbOutcome : Except PyExc (List Row)
  specResp : Except PyExc (List (Str × JVal))

/-- `run_chart_workflow`'s result plus the record of downstream calls. -/
structure ChartOutcome where
  result : Except PyExc ChartEnvelope
  jailbreakCalled : Bool
  translatorCalled : Bool
  dbCalled : Bool
  specCalled : Bool
deriving DecidableEq

/-- src/workflow_chart.py lines 53-148: security gate (threshold 0.5), then
each of the three following stages inside its own try/except returning a
failure dictionary, with the empty-result check after a successful query. -/
def run_chart_workflow (env : ChartEnv) : ChartOutcome :=
  let sec := run_security_checks env.sec (1 / 2)
  if sec.blocked then
    ⟨.ok ⟨false, some (.securityFailed sec.reason), none, none, none⟩,
      sec.jailbreakInvoked, false, false, false⟩
  else
    match generate_chart_sql env.chartSqlResponse with
    | .error e =>
        ⟨.ok ⟨false, some (.sqlGenerationFailed e), none, none, none⟩,
          sec.jailbreakInvoked, true, false, false⟩
    | .ok sql_query =>
        match env.dbOutcome with
        | .error e =>
            ⟨.ok ⟨false, some (.queryExecutionFailed e), some sql_query, none, none⟩,
              sec.jailbreakInvoked, true, true, false⟩
        | .ok results =>
            if results.isEmpty then
              ⟨.ok ⟨false, some .queryReturnedNoResults, some sql_query, none, none⟩,
                sec.jailbreakInvoked, true, true, false⟩
            else
              match generate_chart_specification results env.specResp with
              | .error e =>
                  ⟨.ok ⟨false, some (.chartSpecificationFailed e), some sql_query,
                      some results, none⟩,
                    sec.jailbreakInvoked, true, true, true⟩
              | .ok spec =>
                  ⟨.ok ⟨true, none, some sql_query, some results, some spec⟩,
                    sec.jailbreakInvoked, true, true, true⟩

/-! ### Unified workflow (src/workflow_unified.py) -/

/-- The intent labels of `ChartIntent`. -/
inductive IntentKind
  | chart
  | text
deriving DecidableEq

/-- The `ChartIntent` pydantic model (src/chart_agents.py lines 398-401),
without the `reasoning` string, which the router only prints. -/
structure ChartIntentR where
  intent : IntentKind
  confidence : ℚ
deriving DecidableEq

/-- The flags of `UnifiedWorkflowInput` (src/workflow_unified.py 22-29).
The SQLite/Snowflake and MCP selection flags do not change the routing
logic modelled here. -/
structure UnifiedInput where
  force_chart : Bool := false
  force_text : Bool := false
deriving DecidableEq

/-- Outcomes of the external calls made on behalf of the unified workflow:
the intent-classifier call and the two sub-workflows' environments. -/
structure UnifiedEnv where
  intentOutcome : Except PyExc ChartIntentR
  chartEnv : ChartEnv
  textEnv : TextEnv

/-- The routed result: which sub-workflow produced the dictionary. -/
inductive UnifiedResult
  | chartR (e : ChartEnvelope)
  | textR (e : TextEnvelope)
deriving DecidableEq

/-- `run_unified_workflow`'s result plus routing bookkeeping:
`classifierCalled` records whether `detect_chart_intent` was invoked. -/
structure UnifiedOutcome where
  result : Except PyExc UnifiedResult
  intent : IntentKind
  confidence : ℚ
  classifierCalled : Bool
deriving DecidableEq

/-- src/workflow_unified.py lines 31-113: `force_chart` is tested first, then
`force_text` (each fixing the intent with confidence 1.0 and skipping the
classifier call); otherwise `detect_chart_intent` is called and an exception
there defaults to text intent with confidence 0.5.  The chosen sub-workflow's
result is returned; an exception escaping the text sub-workflow escapes the
unified workflow too. -/
def run_unified_workflow (env : UnifiedEnv) (inp : UnifiedInput) : UnifiedOutcome :=
  let (intent, confidence, classifierCalled) :=
    if inp.force_chart then (IntentKind.chart, (1 : ℚ), false)
    else if inp.force_text then (IntentKind.text, (1 : ℚ), false)
    else
      match env.intentOutcome with
      | .ok ci => (ci.intent, ci.confidence, true)
      | .error _ => (IntentKind.text, (1 : ℚ) / 2, true)
  match intent with
  | .chart =>
      let r := run_chart_workflow env.chartEnv
      ⟨r.result.map .chartR, intent, confidence, classifierCalled⟩
  | .text =>
      let r := run_workflow env.textEnv
      ⟨r.result.map .textR, intent, confidence, classifierCalled⟩

/-! ### Query executors (src/workflow.py `execute_snowflake_query`,
src/workflow_chart.py has a verbatim copy, src/workflow_chart_local.py
`execute_sqlite_query` has the same acquisition/release structure, and
src/snowflake_connector.py `SnowflakeConnector.execute_query` guards the
release with `if cursor:` / `if conn:`).

The environment records whether `connect` succeeds, whether `conn.cursor(...)`
succeeds, and the outcome of `cursor.execute` + `fetchall`.  The outcome
records whether a connection was opened and whether it was closed before the
call returned or re-raised. -/

/-- Outcomes of the database driver calls inside one executor invocation. -/
structure ExecEnv where
  connectOk : Bool
  cursorOk : Bool
  execOutcome : Except PyExc (List Row)
deriving DecidableEq

/-- What an executor invocation did: its Python result and whether the
connection was opened/closed. -/
structure ExecOutcome where
  result : Except PyExc (List Row)
  connOpened : Bool
  connClosed : Bool
deriving DecidableEq

/-- src/workflow.py lines 382-405 (= src/workflow_chart.py lines 19-42):
`conn = connect(...)` outside the try, then `cursor = conn.cursor(...)`,
`execute`, `fetchall` inside it, with `finally: cursor.close(); conn.close()`.
When `conn.cursor(...)` raises, the local `cursor` was never bound, so the
`finally` block's `cursor.close()` raises `UnboundLocalError` and
`conn.close()` is never reached: the connection stays open. -/
def execute_snowflake_query (env : ExecEnv) : ExecOutcome :=
  if !env.connectOk then ⟨.error .connectError, false, false⟩
  else if !env.cursorOk then ⟨.error .unboundLocalError, true, false⟩
  else
    match env.execOutcome with
    | .error e => ⟨.error e, true, true⟩
    | .ok rows => ⟨.ok rows, true, true⟩

/-- src/snowflake_connector.py lines 31-75, `SnowflakeConnector.execute_query`:
`conn = None; cursor = None` before the try, every failure re-raised as
`RuntimeError`, and `finally: if cursor: cursor.close(); if conn: conn.close()`
— the guards make the release safe on every path. -/
def SnowflakeConnector.execute_query (env : ExecEnv) : ExecOutcome :=
  if !env.connectOk then ⟨.error .runtimeError, false, false⟩
  else if !env.cursorOk then ⟨.error .runtimeError, true, true⟩
  else
    match env.execOutcome with
    | .error _ => ⟨.error .runtimeError, true, true⟩
    | .ok rows => ⟨.ok rows, true, true⟩

/-! ### Lemmas about the string primitives -/

theorem leadsWith_iff : ∀ (n h : Str), leadsWith n h = true ↔ ∃ t, h = n ++ t
  | [], h => by simp [leadsWith]
  | a :: as, [] => by simp [leadsWith]
  | a :: as, b :: bs => by
      simp only [leadsWith, Bool.and_eq_true, beq_iff_eq, leadsWith_iff as bs,
        List.cons_append, List.cons.injEq]
      constructor
      · rintro ⟨rfl, t, rfl⟩
        exact ⟨t, rfl, rfl⟩
      · rintro ⟨t, rfl, rfl⟩
        exact ⟨rfl, t, rfl⟩

theorem occursIn_iff : ∀ (n h : Str), occursIn n h = true ↔ ∃ p q, h = p ++ n ++ q
  | n, [] => by
      simp only [occursIn, leadsWith_iff]
      constructor
      · rintro ⟨t, ht⟩
        exact ⟨[], t, by simpa using ht⟩
      · rintro ⟨p, q, hpq⟩
        have h1 := List.append_eq_nil.mp hpq.symm
        have h2 := List.append_eq_nil.mp h1.1
        exact ⟨q, by simp [h2.2, h1.2]⟩
  | n, c :: rest => by
      simp only [occursIn, Bool.or_eq_true, leadsWith_iff, occursIn_iff n rest]
      constructor
      · rintro (⟨t, ht⟩ | ⟨p, q, hpq⟩)
        · exact ⟨[], t, by simpa using ht⟩
        · exact ⟨c :: p, q, by simp [hpq]⟩
      · rintro ⟨p, q, hpq⟩
        cases p with
        | nil => exact Or.inl ⟨q, by simpa using hpq⟩
        | cons x xs =>
            simp only [List.cons_append, List.cons.injEq] at hpq
            exact Or.inr ⟨xs, q, hpq.2⟩

theorem occursIn_of_leadsWith {n h : Str} (hl : leadsWith n h = true) :
    occursIn n h = true := by
  cases h with
  | nil => simpa [occursIn] using hl
  | cons c rest => simp [occursIn, hl]

theorem leadsWith_refl (n : Str) : leadsWith n n = true :=
  (leadsWith_iff n n).mpr ⟨[], by simp⟩

theorem occursIn_append_left {n m : Str} (x : Str) (h : occursIn n m = true) :
    occursIn n (m ++ x) = true := by
  rcases (occursIn_iff n m).mp h with ⟨p, q, rfl⟩
  exact (occursIn_iff _ _).mpr ⟨p, q ++ x, by simp⟩

theorem occursIn_cons {n : Str} (c : Char) {h : Str} (hx : occursIn n h = true) :
    occursIn n (c :: h) = true := by
  simp [occursIn, hx]

theorem occursIn_trans {n m h : Str} (h1 : occursIn n m = true)
    (h2 : occursIn m h = true) : occursIn n h = true := by
  rcases (occursIn_iff n m).mp h1 with ⟨p, q, rfl⟩
  rcases (occursIn_iff _ h).mp h2 with ⟨p', q', rfl⟩
  exact (occursIn_iff _ _).mpr ⟨p' ++ p, q ++ q', by simp⟩

theorem not_occursIn_allSpace {n h : Str} {a : Char}
    (hs : ∀ c ∈ h, isSpace c = true) (hh : n.head? = some a)
    (ha : isSpace a = false) : occursIn n h = false := by
  by_contra hocc
  rcases (occursIn_iff n h).mp (Bool.of_not_eq_false hocc) with ⟨p, q, rfl⟩
  cases n with
  | nil => simp at hh
  | cons x xs =>
      have hx : x = a := by simpa using hh
      have hmem : x ∈ p ++ (x :: xs) ++ q := by simp
      have hsp := hs x hmem
      rw [hx] at hsp
      rw [hsp] at ha
      cases ha

theorem leadsWith_append_spaceR {n m b : Str}
    (hl : leadsWith n (m ++ b) = true)
    (hb : ∀ c ∈ b, isSpace c = true) (hn : ∀ c ∈ n, isSpace c = false) :
    leadsWith n m = true := by
  rcases (leadsWith_iff _ _).mp hl with ⟨t, ht⟩
  rcases List.append_eq_append_iff.mp ht with ⟨a', ha', hb'⟩ | ⟨c', hc', _⟩
  · cases a' with
    | nil => simpa [ha'] using leadsWith_refl m
    | cons x xs =>
        have hx1 : isSpace x = false := hn x (by rw [ha']; simp)
        have hx2 : isSpace x = true := hb x (by rw [hb']; simp)
        rw [hx2] at hx1
        cases hx1
  · exact (leadsWith_iff _ _).mpr ⟨c', hc'⟩

theorem isSpace_cases {c : Char} (h : isSpace c = true) :
    c = ' ' ∨ c = '\t' ∨ c = '\n' ∨ c = '\r' ∨ c = '\x0b' ∨ c = '\x0c' := by
  have h' := h
  simp only [isSpace, Bool.or_eq_true, beq_iff_eq] at h'
  tauto

theorem upChar_of_space {c : Char} (h : isSpace c = true) : upChar c = c := by
  rcases isSpace_cases h with rfl | rfl | rfl | rfl | rfl | rfl <;> rfl

theorem upChar_S_nonspace {c : Char} (h : upChar c = 'S') : isSpace c = false := by
  by_contra hs
  have hs' : isSpace c = true := by
    cases hval : isSpace c
    · exact absurd hval hs
    · rfl
  rw [upChar_of_space hs'] at h
  rcases isSpace_cases hs' with rfl | rfl | rfl | rfl | rfl | rfl <;> simp_all

theorem occursIn_mid_of_space {n : Str} {a : Char}
    (hh : n.head? = some a) (ha : isSpace a = false)
    (hn : ∀ c ∈ n, isSpace c = false) :
    ∀ (A M B : Str), (∀ c ∈ A, isSpace c = true) → (∀ c ∈ B, isSpace c = true) →
      occursIn n (A ++ M ++ B) = true → occursIn n M = true := by
  intro A
  induction A with
  | nil =>
      intro M B _ hB hocc
      simp only [List.nil_append] at hocc
      induction M with
      | nil =>
          simp only [List.nil_append] at hocc
          rw [not_occursIn_allSpace hB hh ha] at hocc
          cases hocc
      | cons c M' ih =>
          simp only [List.cons_append] at hocc
          rcases Bool.or_eq_true _ _ |>.mp (by simpa [occursIn] using hocc) with hlw | hrest
          · exact occursIn_of_leadsWith
              (leadsWith_append_spaceR (by simpa using hlw) hB hn)
          · exact occursIn_cons c (ih hrest)
  | cons c A' ih =>
      intro M B hA hB hocc
      have hc : isSpace c = true := hA c (by simp)
      simp only [List.cons_append] at hocc
      rcases Bool.or_eq_true _ _ |>.mp (by simpa [occursIn] using hocc) with hlw | hrest
      · rcases (leadsWith_iff _ _).mp hlw with ⟨t, htt⟩
        cases n with
        | nil => simp at hh
        | cons x xs =>
            have hx : x = a := by simpa using hh
            have hcx : c = x := by
              have h' := htt
              simp only [List.cons_append, List.cons.injEq] at h'
              exact h'.1
            rw [← hcx] at hx
            rw [hx] at hc
            rw [hc] at ha
            cases ha
      · exact ih M B (fun d hd => hA d (by simp [hd])) hB
          (by rwa [← List.append_assoc] at hrest)

theorem allSpace_upS {l : Str} (h : ∀ c ∈ l, isSpace c = true) :
    ∀ c ∈ upS l, isSpace c = true := by
  intro c hc
  rcases List.mem_map.mp hc with ⟨x, hx, rfl⟩
  rw [upChar_of_space (h x hx)]
  exact h x hx

theorem pyStrip_decomp (s : Str) :
    ∃ A B, s = A ++ pyStrip s ++ B ∧ (∀ c ∈ A, isSpace c = true) ∧
      (∀ c ∈ B, isSpace c = true) := by
  refine ⟨s.takeWhile isSpace,
    ((s.dropWhile isSpace).reverse.takeWhile isSpace).reverse, ?_, ?_, ?_⟩
  · conv_lhs => rw [← List.takeWhile_append_dropWhile isSpace s]
    rw [List.append_assoc]
    congr 1
    conv_lhs => rw [← List.reverse_reverse (s.dropWhile isSpace)]
    conv_lhs => rw [← List.takeWhile_append_dropWhile isSpace (s.dropWhile isSpace).reverse]
    rw [List.reverse_append]
    rfl
  · exact fun c hc => List.mem_takeWhile_imp hc
  · intro c hc
    rw [List.mem_reverse] at hc
    exact List.mem_takeWhile_imp hc

theorem occursIn_upS_pyStrip {n g : Str} {a : Char}
    (hh : n.head? = some a) (ha : isSpace a = false)
    (hn : ∀ c ∈ n, isSpace c = false)
    (hocc : occursIn n (upS g) = true) :
    occursIn n (upS (pyStrip g)) = true := by
  rcases pyStrip_decomp g with ⟨A, B, hg, hA, hB⟩
  rw [hg] at hocc
  simp only [upS, List.map_append] at hocc
  exact occursIn_mid_of_space hh ha hn _ _ _
    (allSpace_upS hA) (allSpace_upS hB) hocc

/-! ### Structure of the search results -/

theorem takeUntilClose_decomp : ∀ {t g : Str}, takeUntilClose t = some g →
    ∃ r, t = g ++ closeFence ++ r := by
  intro t
  induction t with
  | nil => intro g h; simp [takeUntilClose] at h
  | cons c rest ih =>
      intro g h
      rw [takeUntilClose] at h
      split at h
      · rename_i hlc
        obtain rfl : g = [] := by simpa using h.symm
        rcases (leadsWith_iff _ _).mp hlc with ⟨r, hr⟩
        exact ⟨r, by simpa using hr⟩
      · rcases Option.map_eq_some'.mp h with ⟨g', hg', rfl⟩
        rcases ih hg' with ⟨r, hr⟩
        exact ⟨r, by simp [hr]⟩

theorem fencedSqlSearch_infix : ∀ {t g : Str}, fencedSqlSearch t = some g →
    occursIn g t = true := by
  intro t
  induction t with
  | nil => intro g h; simp [fencedSqlSearch] at h
  | cons c rest ih =>
      intro g h
      rw [fencedSqlSearch] at h
      split at h
      · split at h
        · rename_i g' hg'
          have hgg : g' = g := Option.some.inj h
          rcases takeUntilClose_decomp hg' with ⟨r, hr⟩
          have h1 : occursIn g' ((c :: rest).drop 7) = true :=
            (occursIn_iff _ _).mpr ⟨[], closeFence ++ r, by simp [hr]⟩
          rw [← hgg]
          exact occursIn_trans h1 ((occursIn_iff _ _).mpr
            ⟨(c :: rest).take 7, [], by rw [List.append_nil, List.take_append_drop]⟩)
        · exact occursIn_cons c (ih h)
      · exact occursIn_cons c (ih h)

theorem fencedAnySearch_infix : ∀ {t g : Str}, fencedAnySearch t = some g →
    occursIn g t = true := by
  intro t
  induction t with
  | nil => intro g h; simp [fencedAnySearch] at h
  | cons c rest ih =>
      intro g h
      rw [fencedAnySearch] at h
      split at h
      · split at h
        · rename_i g' hg'
          have hgg : g' = g := Option.some.inj h
          rcases takeUntilClose_decomp hg' with ⟨r, hr⟩
          have h1 : occursIn g' ((c :: rest).drop 4) = true :=
            (occursIn_iff _ _).mpr ⟨[], closeFence ++ r, by simp [hr]⟩
          rw [← hgg]
          exact occursIn_trans h1 ((occursIn_iff _ _).mpr
            ⟨(c :: rest).take 4, [], by rw [List.append_nil, List.take_append_drop]⟩)
        · exact occursIn_cons c (ih h)
      · exact occursIn_cons c (ih h)

theorem semiTake_spec : ∀ {t u : Str}, semiTake t = some u →
    u ≠ [] ∧ u.getLast? = some ';' := by
  intro t
  induction t with
  | nil => intro u h; simp [semiTake] at h
  | cons c rest ih =>
      intro u h
      rw [semiTake] at h
      split at h
      · rename_i hc
        obtain rfl : [c] = u := by simpa using h
        refine ⟨by simp, ?_⟩
        rw [beq_iff_eq.mp hc]
        rfl
      · rcases Option.map_eq_some'.mp h with ⟨u', hu', rfl⟩
        rcases ih hu' with ⟨hne, hlast⟩
        refine ⟨by simp, ?_⟩
        cases u' with
        | nil => exact absurd rfl hne
        | cons d ds => simpa [List.getLast?_cons_cons] using hlast

theorem semiTake_full : ∀ {body : Str}, ';' ∉ body →
    semiTake (body ++ [';']) = some (body ++ [';']) := by
  intro body
  induction body with
  | nil => intro _; simp [semiTake]
  | cons c rest ih =>
      intro h
      have hc : ¬(c == ';') = true := by
        simp only [beq_iff_eq]
        exact fun hcc => h (by simp [hcc])
      rw [List.cons_append, semiTake, if_neg hc,
        ih (fun hm => h (List.mem_cons_of_mem c hm))]
      rfl

theorem selectMatchAt_shape {s g : Str} (h : selectMatchAt s = some g) :
    leadsWith selU (upS g) = true ∧ g.getLast? = some ';' := by
  unfold selectMatchAt at h
  split at h
  rotate_left
  · simp at h
  split at h
  rotate_left
  · simp at h
  rename_i a b c d e f w t hguard
  rcases Option.map_eq_some'.mp h with ⟨u, hu, rfl⟩
  obtain ⟨hsel, hws⟩ := (Bool.and_eq_true _ _).mp hguard
  have hsel' : upS [a, b, c, d, e, f] = selU := beq_iff_eq.mp hsel
  simp only [upS, List.map_cons, List.map_nil, selU, List.cons.injEq,
    and_true] at hsel'
  obtain ⟨h1, h2, h3, h4, h5, h6⟩ := hsel'
  constructor
  · simp [upS, leadsWith, selU, h1, h2, h3, h4, h5, h6]
  · rcases semiTake_spec hu with ⟨hne, hlast⟩
    cases u with
    | nil => exact absurd rfl hne
    | cons v vs => simpa [List.getLast?_cons_cons] using hlast

theorem selectSearch_shape : ∀ {t g : Str}, selectSearch t = some g →
    leadsWith selU (upS g) = true ∧ g.getLast? = some ';' := by
  intro t
  induction t with
  | nil => intro g h; simp [selectSearch] at h
  | cons c rest ih =>
      intro g h
      rw [selectSearch] at h
      split at h
      · rename_i g' hg'
        rw [← Option.some.inj h]
        exact selectMatchAt_shape hg'
      · exact ih h

theorem head_nonspace_of_sel {g : Str} (h : leadsWith selU (upS g) = true) :
    ∃ a t, g = a :: t ∧ isSpace a = false := by
  cases g with
  | nil => simp [upS, leadsWith, selU] at h
  | cons x xs =>
      refine ⟨x, xs, rfl, ?_⟩
      have hx : 'S' = upChar x := by
        simp only [upS, List.map_cons, selU, leadsWith, Bool.and_eq_true,
          beq_iff_eq] at h
        exact h.1
      exact upChar_S_nonspace hx.symm

theorem dropWhile_eq_self_of_head {l : Str} {a : Char}
    (hh : l.head? = some a) (ha : isSpace a = false) :
    l.dropWhile isSpace = l := by
  cases l with
  | nil => simp at hh
  | cons x xs =>
      obtain rfl : x = a := by simpa using hh
      simp [List.dropWhile_cons, ha]

theorem pyStrip_eq_self {l : Str} {a z : Char}
    (hh : l.head? = some a) (ha : isSpace a = false)
    (hl : l.getLast? = some z) (hz : isSpace z = false) :
    pyStrip l = l := by
  rw [pyStrip, dropWhile_eq_self_of_head hh ha, stripEnd,
    dropWhile_eq_self_of_head (by rw [List.head?_reverse]; exact hl) hz]
  exact List.reverse_reverse l

/-! ### What extraction success guarantees -/

theorem extract_eq_selectOrLast {text : Str}
    (hf1 : fencedSqlSearch text = none) (hf2 : fencedAnySearch text = none) :
    extract_sql_from_markdown text = extractSelectOrLast text := by
  rw [extract_sql_from_markdown, hf1, hf2]

theorem extractSelectOrLast_contains {text s : Str}
    (h : extractSelectOrLast text = some s) :
    occursIn selU (upS s) = true := by
  rw [extractSelectOrLast] at h
  split at h
  · rename_i g hss
    rcases selectSearch_shape hss with ⟨hlead, hlast⟩
    rcases head_nonspace_of_sel hlead with ⟨a, t, hgat, ha⟩
    have hps : pyStrip g = g :=
      pyStrip_eq_self (a := a) (by rw [hgat]; rfl) ha hlast (by decide)
    rw [← Option.some.inj h, hps]
    exact occursIn_of_leadsWith hlead
  · split at h
    · rename_i hguard
      obtain ⟨hsel, _⟩ := (Bool.and_eq_true _ _).mp hguard
      have hps : occursIn selU (upS (pyStrip text)) = true :=
        occursIn_upS_pyStrip (a := 'S') rfl (by decide) (by decide) hsel
      simp only [] at h
      split at h
      · rw [← Option.some.inj h]
        exact hps
      · rw [← Option.some.inj h]
        show occursIn selU (upS (pyStrip text ++ [';'])) = true
        rw [upS, List.map_append]
        exact occursIn_append_left _ hps
    · simp at h

theorem extract_sql_contains_select {text s : Str}
    (hf : fencedSqlSearch text = none)
    (h : extract_sql_from_markdown text = some s) :
    occursIn selU (upS s) = true := by
  rw [extract_sql_from_markdown] at h
  split at h
  · rename_i g hfs
    rw [hf] at hfs
    simp at hfs
  · split at h
    · rename_i g hfa
      split at h
      · rename_i hsel
        rw [← Option.some.inj h]
        exact occursIn_upS_pyStrip (a := 'S') rfl (by decide) (by decide) hsel
      · exact extractSelectOrLast_contains h
    · exact extractSelectOrLast_contains h

theorem extractChartSql_contains_select {text s : Str}
    (hf : fencedSqlSearch text = none)
    (h : extractChartSql text = some s) :
    occursIn selU (upS s) = true := by
  rw [extractChartSql] at h
  split at h
  · rename_i g hfs
    rw [hf] at hfs
    simp at hfs
  · split at h
    · rename_i g hfa
      split at h
      · rename_i hsel
        rw [← Option.some.inj h]
        exact occursIn_upS_pyStrip (a := 'S') rfl (by decide) (by decide) hsel
      · split at h
        · rename_i hsel2
          rw [← Option.some.inj h]
          exact occursIn_upS_pyStrip (a := 'S') rfl (by decide) (by decide) hsel2
        · simp at h
    · split at h
      · rename_i hsel2
        rw [← Option.some.inj h]
        exact occursIn_upS_pyStrip (a := 'S') rfl (by decide) (by decide) hsel2
      · simp at h

/-! ### Claim theorems -/

/-- C1: for every input flagged by the content-moderation classifier, both the
text and the chart workflow return a blocked result whose error carries reason
`harmful_content`, the jailbreak classifier is not invoked on that text, and
no SQL-translation call and no database call are performed. -/
theorem claim_C1_moderation_short_circuit
    (tenv : TextEnv) (cenv : ChartEnv)
    (ht : tenv.sec.modOutcome = some true)
    (hc : cenv.sec.modOutcome = some true) :
    (run_workflow tenv).result =
        .ok ⟨false, some (.securityFailed (some .harmful_content)), none, none, none⟩ ∧
    (run_workflow tenv).jailbreakCalled = false ∧
    (run_workflow tenv).translatorCalled = false ∧
    (run_workflow tenv).dbCalled = false ∧
    (run_chart_workflow cenv).result =
        .ok ⟨false, some (.securityFailed (some .harmful_content)), none, none, none⟩ ∧
    (run_chart_workflow cenv).jailbreakCalled = false ∧
    (run_chart_workflow cenv).translatorCalled = false ∧
    (run_chart_workflow cenv).dbCalled = false := by
  have h1 : run_security_checks tenv.sec (1 / 2) =
      ⟨true, some .harmful_content, false⟩ := by
    simp [run_security_checks, check_all, run_openai_moderation, ht]
  have h2 : run_security_checks cenv.sec (1 / 2) =
      ⟨true, some .harmful_content, false⟩ := by
    simp [run_security_checks, check_all, run_openai_moderation, hc]
  rw [run_workflow, run_chart_workflow, h1, h2]
  simp

theorem claim_C1_witness :
    ((⟨⟨some true, none⟩, .ok [], .ok [], .ok []⟩ : TextEnv).sec.modOutcome
        = some true) ∧
    (run_workflow ⟨⟨some true, none⟩, .ok [], .ok [], .ok []⟩).result =
      .ok ⟨false, some (.securityFailed (some .harmful_content)), none, none, none⟩ ∧
    (run_chart_workflow ⟨⟨some true, none⟩, .ok [], .ok [], .ok []⟩).translatorCalled
        = false :=
  ⟨rfl,
   (claim_C1_moderation_short_circuit ⟨⟨some true, none⟩, .ok [], .ok [], .ok []⟩
      ⟨⟨some true, none⟩, .ok [], .ok [], .ok []⟩ rfl rfl).1,
   (claim_C1_moderation_short_circuit ⟨⟨some true, none⟩, .ok [], .ok [], .ok []⟩
      ⟨⟨some true, none⟩, .ok [], .ok [], .ok []⟩ rfl rfl).2.2.2.2.2.2.1⟩

/-- C3 counterexample: with moderation passing and the jailbreak confidence
exactly equal to the threshold (both 1/2), the guardrails do NOT block,
whereas the claim says an input whose confidence equals the threshold is
blocked.  The code compares with strict `>`. -/
theorem claim_C3_counterexample :
    (check_all ⟨some false, some (1 / 2)⟩ (1 / 2)).blocked = false ∧
    (check_all ⟨some false, some (1 / 2)⟩ (1 / 2)).reason = none := by
  have h : decide ((1 : ℚ) / 2 < 1 / 2) = false := by norm_num
  constructor <;>
    simp [check_all, run_openai_moderation, run_jailbreak_detection,
      JailbreakDetector.detect, h]

/-- C3 amended: for every input that passes content moderation, the request is
blocked with reason `jailbreak_attempt` if and only if the jailbreak
confidence is STRICTLY greater than the threshold; confidence exactly equal
to the threshold is not blocked. -/
theorem claim_C3_blocks_iff_strictly_above (p thr : ℚ) (env : SecEnv)
    (hm : env.modOutcome = some false) (hj : env.jailOutcome = some p) :
    ((check_all env thr).blocked = true ∧
      (check_all env thr).reason = some .jailbreak_attempt) ↔ thr < p := by
  by_cases h : thr < p
  · simp [check_all, run_openai_moderation, hm, run_jailbreak_detection,
      JailbreakDetector.detect, hj, h]
  · simp [check_all, run_openai_moderation, hm, run_jailbreak_detection,
      JailbreakDetector.detect, hj, h]

theorem claim_C3_witness :
    (check_all ⟨some false, some (3 / 4)⟩ (1 / 2)).blocked = true ∧
    (check_all ⟨some false, some (3 / 4)⟩ (1 / 2)).reason = some .jailbreak_attempt :=
  (claim_C3_blocks_iff_strictly_above (3 / 4) (1 / 2)
    ⟨some false, some (3 / 4)⟩ rfl rfl).mpr (by norm_num)

/-- C4 counterexample: a moderation exception DOES yield `blocked = false`
(the handler returns a non-blocking result and the pipeline proceeds), whereas
the claim says content moderation is not fail-open. -/
theorem claim_C4_counterexample :
    (run_openai_moderation none).blocked = false ∧
    (run_openai_moderation none).error = true := by
  constructor <;> rfl

/-- C4 amended: BOTH classifier checks are fail-open: a jailbreak-detector
exception yields `blocked = false` for that check, a moderation exception also
yields `blocked = false`, and with both classifiers erroring the pipeline is
not blocked at all. -/
theorem claim_C4_both_checks_fail_open (thr : ℚ) :
    (run_jailbreak_detection none thr).blocked = false ∧
    (run_openai_moderation none).blocked = false ∧
    (check_all ⟨none, none⟩ thr).blocked = false := by
  refine ⟨?_, rfl, ?_⟩ <;>
    simp [run_jailbreak_detection, JailbreakDetector.detect, check_all,
      run_openai_moderation]

/-- C10: when both `force_chart` and `force_text` are true, `force_chart` wins:
the request is routed to the chart workflow, the intent is fixed to chart with
confidence 1.0, and the intent-classifier call is never made. -/
theorem claim_C10_force_chart_precedence (env : UnifiedEnv) (inp : UnifiedInput)
    (h1 : inp.force_chart = true) (h2 : inp.force_text = true) :
    (run_unified_workflow env inp).intent = .chart ∧
    (run_unified_workflow env inp).confidence = 1 ∧
    (run_unified_workflow env inp).classifierCalled = false ∧
    (run_unified_workflow env inp).result =
      (run_chart_workflow env.chartEnv).result.map .chartR := by
  simp [run_unified_workflow, h1]

theorem claim_C10_witness :
    (run_unified_workflow
      ⟨.ok ⟨.text, 9 / 10⟩, ⟨⟨some false, some 0⟩, .ok [], .ok [], .ok []⟩,
        ⟨⟨some false, some 0⟩, .ok [], .ok [], .ok []⟩⟩
      ⟨true, true⟩).intent = .chart ∧
    (run_unified_workflow
      ⟨.ok ⟨.text, 9 / 10⟩, ⟨⟨some false, some 0⟩, .ok [], .ok [], .ok []⟩,
        ⟨⟨some false, some 0⟩, .ok [], .ok [], .ok []⟩⟩
      ⟨true, true⟩).classifierCalled = false :=
  ⟨(claim_C10_force_chart_precedence _ ⟨true, true⟩ rfl rfl).1,
   (claim_C10_force_chart_precedence _ ⟨true, true⟩ rfl rfl).2.2.1⟩

/-- C9 (connection-release claim, code bug): in `execute_snowflake_query`
(src/workflow.py and its copy in src/workflow_chart.py), when the connection
opens but `conn.cursor(...)` raises, the `finally` block evaluates the unbound
local `cursor` — so `conn.close()` is never executed and the connection leaks,
contradicting the claimed release on every exit path.  The
`SnowflakeConnector.execute_query` variant guards the release and does close
the connection on that same path. -/
theorem claim_C9_connection_leak_on_cursor_failure :
    (execute_snowflake_query ⟨true, false, .ok []⟩).connOpened = true ∧
    (execute_snowflake_query ⟨true, false, .ok []⟩).connClosed = false ∧
    (execute_snowflake_query ⟨true, false, .ok []⟩).result =
      .error .unboundLocalError ∧
    (SnowflakeConnector.execute_query ⟨true, false, .ok []⟩).connClosed = true := by
  refine ⟨rfl, rfl, rfl, rfl⟩

theorem check_all_pass {env : SecEnv} {thr p : ℚ}
    (hm : env.modOutcome = some false) (hj : env.jailOutcome = some p)
    (hp : ¬(thr < p)) : check_all env thr = ⟨false, none, true⟩ := by
  simp [check_all, run_openai_moderation, hm, run_jailbreak_detection,
    JailbreakDetector.detect, hj, hp]

/-- C5 counterexample: with security passing and a model response from which
no SQL can be extracted, the translator's `ValueError` escapes `run_workflow`
uncaught (the result is a raised exception, not a failure dictionary), and it
escapes `run_unified_workflow`'s text route too. -/
theorem claim_C5_counterexample :
    (run_workflow ⟨⟨some false, some 0⟩, .ok (strL "no sql here"), .ok [], .ok []⟩).result
      = .error .valueError ∧
    (run_unified_workflow
      ⟨.ok ⟨.text, 1⟩, ⟨⟨some false, some 0⟩, .ok [], .ok [], .ok []⟩,
        ⟨⟨some false, some 0⟩, .ok (strL "no sql here"), .ok [], .ok []⟩⟩
      ⟨false, true⟩).result = .error .valueError := by
  have hsec : run_security_checks ⟨some false, some 0⟩ ((1 : ℚ) / 2) =
      ⟨false, none, true⟩ :=
    check_all_pass rfl rfl (by norm_num)
  have hex : extract_sql_from_markdown (strL "no sql here") = none := by decide
  have htext : (run_workflow
      ⟨⟨some false, some 0⟩, .ok (strL "no sql here"), .ok [], .ok []⟩).result
      = .error .valueError := by
    rw [run_workflow, hsec]
    simp [hex]
  refine ⟨htext, ?_⟩
  rw [run_unified_workflow]
  simp only [Bool.false_eq_true, if_false, if_true]
  rw [show (run_workflow
      ⟨⟨some false, some 0⟩, .ok (strL "no sql here"), .ok [], .ok []⟩).result
      = .error .valueError from htext]
  rfl

/-- C5 amended: in the CHART workflow every stage error (SQL generation,
execution, empty result, specification) is caught at its stage boundary and
converted into a failure dictionary — the result is an `.ok` envelope for
every environment; in the TEXT workflow only the security gate is handled:
an exception of ANY later stage — the translator (API error or extraction
`ValueError`), the executor, or the interpreter — propagates uncaught past
the orchestrator, for every environment; and any exception escaping the text
workflow escapes `run_unified_workflow`'s text route as well. -/
theorem claim_C5_chart_catches_text_propagates :
    (∀ env : ChartEnv, ∃ e, (run_chart_workflow env).result = .ok e) ∧
    (∀ env : TextEnv, (run_security_checks env.sec (1 / 2)).blocked = false →
      (∀ exc, env.sqlResponse = .error exc →
        (run_workflow env).result = .error exc) ∧
      (∀ txt, env.sqlResponse = .ok txt → extract_sql_from_markdown txt = none →
        (run_workflow env).result = .error .valueError) ∧
      (∀ txt q exc, env.sqlResponse = .ok txt →
        extract_sql_from_markdown txt = some q → env.dbOutcome = .error exc →
        (run_workflow env).result = .error exc) ∧
      (∀ txt q rows exc, env.sqlResponse = .ok txt →
        extract_sql_from_markdown txt = some q → env.dbOutcome = .ok rows →
        env.analysisOutcome = .error exc →
        (run_workflow env).result = .error exc)) ∧
    (∀ uenv : UnifiedEnv, ∀ exc, (run_workflow uenv.textEnv).result = .error exc →
      (run_unified_workflow uenv ⟨false, true⟩).result = .error exc) := by
  refine ⟨?_, ?_, ?_⟩
  · intro env
    rw [run_chart_workflow]
    split
    · exact ⟨_, rfl⟩
    · split
      · exact ⟨_, rfl⟩
      · split
        · exact ⟨_, rfl⟩
        · split
          · exact ⟨_, rfl⟩
          · split
            · exact ⟨_, rfl⟩
            · exact ⟨_, rfl⟩
  · intro env hsec
    refine ⟨?_, ?_, ?_, ?_⟩
    · intro exc hexc
      rw [run_workflow, hsec]
      simp [hexc]
    · intro txt htxt hex
      rw [run_workflow, hsec]
      simp [htxt, hex]
    · intro txt q exc htxt hex hdb
      rw [run_workflow, hsec]
      simp [htxt, hex, hdb]
    · intro txt q rows exc htxt hex hdb han
      rw [run_workflow, hsec]
      simp [htxt, hex, hdb, han]
  · intro uenv exc h
    rw [run_unified_workflow]
    simp only [Bool.false_eq_true, if_false, if_true]
    rw [h]
    rfl

theorem claim_C5_witness :
    (∃ e, (run_chart_workflow
        ⟨⟨some false, some 0⟩, .error .apiError, .ok [], .ok []⟩).result = .ok e) ∧
    (run_workflow ⟨⟨some false, some 0⟩, .error .apiError, .ok [], .ok []⟩).result
      = .error .apiError ∧
    (run_workflow ⟨⟨some false, some 0⟩, .ok (strL "SELECT c FROM v LIMIT 2;"),
        .error .dbError, .ok []⟩).result = .error .dbError ∧
    (run_workflow ⟨⟨some false, some 0⟩, .ok (strL "SELECT c FROM v LIMIT 2;"),
        .ok [], .error .apiError⟩).result = .error .apiError ∧
    (run_unified_workflow ⟨.ok ⟨.text, 1⟩,
        ⟨⟨some false, some 0⟩, .ok [], .ok [], .ok []⟩,
        ⟨⟨some false, some 0⟩, .ok (strL "SELECT c FROM v LIMIT 2;"),
          .error .dbError, .ok []⟩⟩ ⟨false, true⟩).result = .error .dbError :=
  ⟨claim_C5_chart_catches_text_propagates.1
      ⟨⟨some false, some 0⟩, .error .apiError, .ok [], .ok []⟩,
   (claim_C5_chart_catches_text_propagates.2.1
      ⟨⟨some false, some 0⟩, .error .apiError, .ok [], .ok []⟩
      (by rw [show run_security_checks ⟨some false, some 0⟩ ((1 : ℚ) / 2) =
            ⟨false, none, true⟩ from check_all_pass rfl rfl (by norm_num)])).1
      .apiError rfl,
   ((claim_C5_chart_catches_text_propagates.2.1
      ⟨⟨some false, some 0⟩, .ok (strL "SELECT c FROM v LIMIT 2;"),
        .error .dbError, .ok []⟩
      (by rw [show run_security_checks ⟨some false, some 0⟩ ((1 : ℚ) / 2) =
            ⟨false, none, true⟩ from check_all_pass rfl rfl (by norm_num)])).2.2.1
      (strL "SELECT c FROM v LIMIT 2;") (strL "SELECT c FROM v LIMIT 2;")
      .dbError rfl (by decide) rfl),
   ((claim_C5_chart_catches_text_propagates.2.1
      ⟨⟨some false, some 0⟩, .ok (strL "SELECT c FROM v LIMIT 2;"),
        .ok [], .error .apiError⟩
      (by rw [show run_security_checks ⟨some false, some 0⟩ ((1 : ℚ) / 2) =
            ⟨false, none, true⟩ from check_all_pass rfl rfl (by norm_num)])).2.2.2
      (strL "SELECT c FROM v LIMIT 2;") (strL "SELECT c FROM v LIMIT 2;")
      [] .apiError rfl (by decide) rfl rfl),
   claim_C5_chart_catches_text_propagates.2.2
      ⟨.ok ⟨.text, 1⟩, ⟨⟨some false, some 0⟩, .ok [], .ok [], .ok []⟩,
        ⟨⟨some false, some 0⟩, .ok (strL "SELECT c FROM v LIMIT 2;"),
          .error .dbError, .ok []⟩⟩ .dbError
      ((claim_C5_chart_catches_text_propagates.2.1
        ⟨⟨some false, some 0⟩, .ok (strL "SELECT c FROM v LIMIT 2;"),
          .error .dbError, .ok []⟩
        (by rw [show run_security_checks ⟨some false, some 0⟩ ((1 : ℚ) / 2) =
              ⟨false, none, true⟩ from check_all_pass rfl rfl (by norm_num)])).2.2.1
        (strL "SELECT c FROM v LIMIT 2;") (strL "SELECT c FROM v LIMIT 2;")
        .dbError rfl (by decide) rfl)⟩

/-- C7: when the store returns zero rows, the chart workflow returns a failure
envelope (`success = false`, the empty-result error, no chart specified),
while the text workflow treats zero rows as a valid outcome and returns
`success = true` with a narrative. -/
theorem claim_C7_empty_rows_soft_failure_chart_only
    (cenv : ChartEnv) (tenv : TextEnv) (q txt q2 a : Str)
    (hcsec : (run_security_checks cenv.sec (1 / 2)).blocked = false)
    (hcsql : generate_chart_sql cenv.chartSqlResponse = .ok q)
    (hcdb : cenv.dbOutcome = .ok [])
    (htsec : (run_security_checks tenv.sec (1 / 2)).blocked = false)
    (htsql : tenv.sqlResponse = .ok txt)
    (htex : extract_sql_from_markdown txt = some q2)
    (htdb : tenv.dbOutcome = .ok ([] : List Row))
    (hta : tenv.analysisOutcome = .ok a) :
    (run_chart_workflow cenv).result =
      .ok ⟨false, some .queryReturnedNoResults, some q, none, none⟩ ∧
    (run_workflow tenv).result = .ok ⟨true, none, some q2, some [], some a⟩ := by
  constructor
  · rw [run_chart_workflow]
    simp only [hcsec, Bool.false_eq_true, if_false]
    rw [hcsql, hcdb]
    simp
  · rw [run_workflow]
    simp only [htsec, Bool.false_eq_true, if_false]
    rw [htsql]
    simp [htex, htdb, hta]

theorem claim_C7_witness :
    (run_chart_workflow ⟨⟨some false, some 0⟩,
        .ok (strL "```sql\nSELECT a FROM t LIMIT 5;\n```"), .ok [], .ok []⟩).result =
      .ok ⟨false, some .queryReturnedNoResults,
        some (strL "SELECT a FROM t LIMIT 5;"), none, none⟩ ∧
    (run_workflow ⟨⟨some false, some 0⟩,
        .ok (strL "SELECT b FROM u LIMIT 1;"), .ok [], .ok (strL "narrative")⟩).result =
      .ok ⟨true, none, some (strL "SELECT b FROM u LIMIT 1;"), some [],
        some (strL "narrative")⟩ :=
  claim_C7_empty_rows_soft_failure_chart_only
    ⟨⟨some false, some 0⟩, .ok (strL "```sql\nSELECT a FROM t LIMIT 5;\n```"),
      .ok [], .ok []⟩
    ⟨⟨some false, some 0⟩, .ok (strL "SELECT b FROM u LIMIT 1;"), .ok [],
      .ok (strL "narrative")⟩
    (strL "SELECT a FROM t LIMIT 5;") (strL "SELECT b FROM u LIMIT 1;")
    (strL "SELECT b FROM u LIMIT 1;") (strL "narrative")
    (by rw [show run_security_checks ⟨some false, some 0⟩ ((1 : ℚ) / 2) =
          ⟨false, none, true⟩ from check_all_pass rfl rfl (by norm_num)])
    (by decide) rfl
    (by rw [show run_security_checks ⟨some false, some 0⟩ ((1 : ℚ) / 2) =
          ⟨false, none, true⟩ from check_all_pass rfl rfl (by norm_num)])
    rfl (by decide) rfl rfl

/-- C2 counterexample: the model response is a fenced sql block holding a DROP
statement; both extractors succeed and return it verbatim, violating the
claimed `^SELECT\b.*LIMIT\s+\d+` / no-DDL-keyword invariant — extraction
performs no validation. -/
theorem claim_C2_counterexample :
    extract_sql_from_markdown (strL "```sql\nDROP TABLE pigs\n```") =
        some (strL "DROP TABLE pigs") ∧
    extractChartSql (strL "```sql\nDROP TABLE pigs\n```") =
        some (strL "DROP TABLE pigs") ∧
    specSqlInvariant (strL "DROP TABLE pigs") = false := by
  refine ⟨by decide, by decide, by decide⟩

/-- C2 amended: the extraction step enforces no SELECT/LIMIT/keyword invariant
on its output; the only code-level guarantee is that when the response
contains no fenced sql block, a string returned by either extractor contains
the substring SELECT (case-insensitively).  The spec's invariant is requested
of the model by the prompts, not checked by the code. -/
theorem claim_C2_extraction_only_guarantees_select (text s : Str)
    (hf : fencedSqlSearch text = none) :
    (extract_sql_from_markdown text = some s → occursIn selU (upS s) = true) ∧
    (extractChartSql text = some s → occursIn selU (upS s) = true) :=
  ⟨fun h => extract_sql_contains_select hf h,
   fun h => extractChartSql_contains_select hf h⟩

theorem claim_C2_witness :
    fencedSqlSearch (strL "use SELECT x FROM t") = none ∧
    occursIn selU (upS (strL "use SELECT x FROM t;")) = true :=
  ⟨by decide,
   (claim_C2_extraction_only_guarantees_select (strL "use SELECT x FROM t")
      (strL "use SELECT x FROM t;") (by decide)).1 (by decide)⟩

/-- C6 counterexample: `"SHOW TABLES"` is the output of a successful
extraction (from a fenced sql block) and contains no fenced code block, yet
re-extracting it raises `ValueError` instead of returning it unchanged —
extraction is not idempotent on all of its fence-free outputs. -/
theorem claim_C6_counterexample :
    extract_sql_from_markdown (strL "```sql\nSHOW TABLES\n```") =
        some (strL "SHOW TABLES") ∧
    occursIn (strL "```") (strL "SHOW TABLES") = false ∧
    extract_sql_from_markdown (strL "SHOW TABLES") = none := by
  refine ⟨by decide, by decide, by decide⟩

/-- C6 amended: extraction is idempotent on the outputs of the direct
`SELECT ... ;` extraction path: a string on which neither fenced-block
pattern matches, that starts with SELECT (case-insensitively) followed by a
whitespace character, and whose only `;` is its final character, is returned
unchanged.  Outputs of the fenced-block or full-text fallback paths (e.g. a
fenced block without SELECT, or prose around a SELECT) need not be fixed
points. -/
theorem claim_C6_idempotent_on_direct_select_outputs
    (a b c d e f w : Char) (body s : Str)
    (hs : s = a :: b :: c :: d :: e :: f :: w :: (body ++ [';']))
    (hsel : upS [a, b, c, d, e, f] = selU)
    (hw : isSpace w = true)
    (hsemi : ';' ∉ body)
    (hf1 : fencedSqlSearch s = none)
    (hf2 : fencedAnySearch s = none) :
    extract_sql_from_markdown s = some s := by
  subst hs
  have hmatch : selectMatchAt (a :: b :: c :: d :: e :: f :: w :: (body ++ [';'])) =
      some (a :: b :: c :: d :: e :: f :: w :: (body ++ [';'])) := by
    simp only [selectMatchAt, hsel, hw, beq_self_eq_true, Bool.and_self, if_true]
    rw [semiTake_full hsemi]
    rfl
  have hss : selectSearch (a :: b :: c :: d :: e :: f :: w :: (body ++ [';'])) =
      some (a :: b :: c :: d :: e :: f :: w :: (body ++ [';'])) := by
    rw [selectSearch, hmatch]
  have ha : isSpace a = false := by
    apply upChar_S_nonspace
    have h6 := hsel
    simp only [upS, List.map_cons, List.map_nil, selU, List.cons.injEq,
      and_true] at h6
    exact h6.1
  have hlast : (a :: b :: c :: d :: e :: f :: w :: (body ++ [';'])).getLast? =
      some ';' := by
    rw [show a :: b :: c :: d :: e :: f :: w :: (body ++ [';']) =
        (a :: b :: c :: d :: e :: f :: w :: body) ++ [';'] by simp]
    exact List.getLast?_concat _
  rw [extract_eq_selectOrLast hf1 hf2, extractSelectOrLast, hss]
  show some (pyStrip (a :: b :: c :: d :: e :: f :: w :: (body ++ [';']))) =
    some (a :: b :: c :: d :: e :: f :: w :: (body ++ [';']))
  rw [pyStrip_eq_self (l := a :: b :: c :: d :: e :: f :: w :: (body ++ [';']))
    (a := a) rfl ha hlast (by decide)]

theorem claim_C6_witness :
    extract_sql_from_markdown (strL "SELECT * FROM t LIMIT 3;") =
      some (strL "SELECT * FROM t LIMIT 3;") :=
  claim_C6_idempotent_on_direct_select_outputs 'S' 'E' 'L' 'E' 'C' 'T' ' '
    (strL "* FROM t LIMIT 3") (strL "SELECT * FROM t LIMIT 3;")
    (by decide) (by decide) (by decide) (by decide) (by decide) (by decide)

/-- C8 counterexample: the `ChartSpecification` model accepts a specification
whose `chart_type` is `line` while `y_axis` is a list of two columns — the
claimed "list iff multi_line/grouped_bar" pairing is not validated anywhere
in the pipeline (it is only requested in the prompt). -/
theorem claim_C8_counterexample :
    chartSpecOfJson
        [(strL "chart_type", .jstr (strL "line")),
         (strL "x_axis", .jstr (strL "date")),
         (strL "y_axis", .jarr [.jstr (strL "a"), .jstr (strL "b")]),
         (strL "title", .jstr (strL "T")),
         (strL "x_label", .jstr (strL "X")),
         (strL "y_label", .jstr (strL "Y")),
         (strL "reasoning", .jstr (strL "R"))] =
      some ⟨.line, strL "date", .inr [strL "a", strL "b"], strL "T", strL "X",
        strL "Y", none, 450, true, strL "R"⟩ := by
  rfl

/-- C8 amended: for every JSON object accepted by the `ChartSpecification`
validation, whether `y_axis` is a list is determined solely by the shape of
the JSON `y_axis` value (array versus string), independently of `chart_type`;
both shapes are accepted for every chart type. -/
theorem claim_C8_y_axis_shape_independent_of_chart_type
    (o : List (Str × JVal)) (spec : ChartSpecification)
    (h : chartSpecOfJson o = some spec) :
    ((∃ l, spec.y_axis = .inr l) ↔ (∃ l, lookupJ o (strL "y_axis") = some (.jarr l))) := by
  simp only [chartSpecOfJson, Option.bind_eq_bind, Option.bind_eq_some,
    Option.pure_def, Option.some.injEq] at h
  obtain ⟨ct, hct, ctv, hctv, xa, hxa, ya, hya, ti, hti, xl, hxl, yl, hyl,
    cb, hcb, ht2, hht, sl, hsl, rs, hrs, hspec⟩ := h
  have hyax : spec.y_axis = ya := by rw [← hspec]
  cases hly : lookupJ o (strL "y_axis") with
  | none => rw [hly] at hya; simp [jYAxis?] at hya
  | some v =>
      rw [hly] at hya
      cases v with
      | jstr str =>
          have : Sum.inl str = ya := by simpa [jYAxis?] using hya
          constructor
          · rintro ⟨l, hl⟩
            rw [hyax, ← this] at hl
            cases hl
          · rintro ⟨l, hl⟩
            cases hl
      | jnum n => simp [jYAxis?] at hya
      | jbool b => simp [jYAxis?] at hya
      | jnull => simp [jYAxis?] at hya
      | jobj oo => simp [jYAxis?] at hya
      | jarr l =>
          simp only [jYAxis?, Option.map_eq_some'] at hya
          rcases hya with ⟨ls, hls, hya⟩
          constructor
          · intro _
            exact ⟨l, rfl⟩
          · intro _
            exact ⟨ls, by rw [hyax, ← hya]⟩

theorem claim_C8_witness :
    ∃ l, (⟨ChartType.multi_line, strL "date",
        .inr [strL "pneumonia", strL "diarrhea", strL "fever"], strL "T",
        strL "X", strL "Y", none, 500, true, strL "R"⟩ :
          ChartSpecification).y_axis = .inr l :=
  (claim_C8_y_axis_shape_independent_of_chart_type
      [(strL "chart_type", .jstr (strL "multi_line")),
       (strL "x_axis", .jstr (strL "date")),
       (strL "y_axis", .jarr [.jstr (strL "pneumonia"), .jstr (strL "diarrhea"),
          .jstr (strL "fever")]),
       (strL "title", .jstr (strL "T")),
       (strL "x_label", .jstr (strL "X")),
       (strL "y_label", .jstr (strL "Y")),
       (strL "color_by", .jnull),
       (strL "height", .jnum 500),
       (strL "show_legend", .jbool true),
       (strL "reasoning", .jstr (strL "R"))]
      ⟨ChartType.multi_line, strL "date",
        .inr [strL "pneumonia", strL "diarrhea", strL "fever"], strL "T",
        strL "X", strL "Y", none, 500, true, strL "R"⟩
      (by rfl)).mpr
    ⟨[.jstr (strL "pneumonia"), .jstr (strL "diarrhea"), .jstr (strL "fever")],
      by rfl⟩

theorem claim_C4_witness :
    (run_jailbreak_detection none (1 / 2)).blocked = false ∧
    (run_openai_moderation none).blocked = false ∧
    (check_all ⟨none, none⟩ (1 / 2)).blocked = false :=
  claim_C4_both_checks_fail_open (1 / 2)
